import Mathlib

/-!
Shallow embedding of the data-aggregation core of the Windsurf social-media
dashboard (source files `src/components/dashboard/ReachSection.tsx` and
`src/components/dashboard/HashtagSection.tsx`), together with proofs settling
the specification claims about it.

Conventions of the embedding:
* JS numbers used as counts/metrics are `Nat`; sentiment scores are `ℚ`.
* Optional / possibly-`undefined` fields are `Option _`.
* The host primitive `Date` (UTC calendar arithmetic, `toISOString`) is
  implemented explicitly below via the standard civil-calendar algorithms;
  string parsing (`new Date(string)`) is modelled for the ECMAScript Date
  Time String Format date strings `YYYY-MM-DD` and expanded-year
  `±YYYYYY-MM-DD` (both of which `toISOString` can emit), every other string
  being unparseable (`none`).
-/

namespace Dashboard

/-! ## UTC civil calendar: the model of the host `Date` primitive -/

/-- Civil date (year, month, day) of a day number counted from the epoch
1970-01-01, by the standard Gregorian-calendar algorithm. -/
def civilFromDays (z0 : Int) : Int × Nat × Nat :=
  let z := z0 + 719468
  let era : Int := Int.fdiv z 146097
  let doe : Nat := (z - era * 146097).toNat
  let yoe : Nat := (doe - doe / 1460 + doe / 36524 - doe / 146096) / 365
  let y : Int := (yoe : Int) + era * 400
  let doy : Nat := doe - (365 * yoe + yoe / 4 - yoe / 100)
  let mp : Nat := (5 * doy + 2) / 153
  let d : Nat := doy - (153 * mp + 2) / 5 + 1
  let m : Nat := if mp < 10 then mp + 3 else mp - 9
  (if m ≤ 2 then y + 1 else y, m, d)

/-- Day number (from the epoch 1970-01-01) of a civil date. -/
def daysFromCivil (y : Int) (m d : Nat) : Int :=
  let y' : Int := if m ≤ 2 then y - 1 else y
  let era : Int := Int.fdiv y' 400
  let yoe : Nat := (y' - era * 400).toNat
  let mp : Nat := if 3 ≤ m then m - 3 else m + 9
  let doy : Nat := (153 * mp + 2) / 5 + d - 1
  let doe : Nat := yoe * 365 + yoe / 4 - yoe / 100 + doy
  era * 146097 + (doe : Int) - 719468

/-- Zero-pad a natural number to width `w`. -/
def padTo (w : Nat) (n : Nat) : String :=
  let s := toString n
  if s.length < w then String.mk (List.replicate (w - s.length) '0') ++ s else s

/-- Two-digit zero-padded rendering. -/
def pad2 (n : Nat) : String := padTo 2 n

/-- Year rendering of `Date.prototype.toISOString`: four digits for years
0..9999, signed six-digit extended years otherwise. -/
def isoYearString (y : Int) : String :=
  if 0 ≤ y ∧ y ≤ 9999 then padTo 4 y.toNat
  else if y < 0 then "-" ++ padTo 6 y.natAbs
  else "+" ++ padTo 6 y.toNat

/-- `new Date(ms).toISOString().split('T')[0]`: the `YYYY-MM-DD` rendering of
the UTC calendar day containing epoch-millisecond instant `ms`. -/
def isoDayString (ms : Int) : String :=
  let c := civilFromDays (Int.fdiv ms 86400000)
  isoYearString c.1 ++ "-" ++ pad2 c.2.1 ++ "-" ++ pad2 c.2.2

/-- Gregorian leap-year test. -/
def isLeapYear (y : Int) : Bool := (y % 4 == 0 && y % 100 != 0) || y % 400 == 0

/-- Number of days in a month. -/
def daysInMonth (y : Int) (m : Nat) : Nat :=
  if m = 2 then (if isLeapYear y then 29 else 28)
  else if m = 4 ∨ m = 6 ∨ m = 9 ∨ m = 11 then 30 else 31

/-- Numeric value of a decimal digit character. -/
def digitVal (c : Char) : Option Nat := if c.isDigit then some (c.toNat - 48) else none

/-- Largest epoch-millisecond magnitude representable by a JS `Date`
(`8.64e15`); beyond it `getTime()` is `NaN`. -/
def maxJsDateMs : Nat := 8640000000000000

/-- Model of `new Date(s).getTime()` for strings: parses an ECMAScript Date
Time String Format date string — `YYYY-MM-DD`, or the expanded-year form
`±YYYYYY-MM-DD` that `toISOString` emits outside years 0..9999 — to the
epoch-millisecond instant of UTC midnight of that day, rejecting out-of-range
components, the prohibited year `-000000`, and instants beyond the `Date`
range, as JS does; every other string shape is modelled as unparseable
(`none`, i.e. an Invalid Date). -/
def parseIsoDateMs (s : String) : Option Int :=
  match s.toList with
  | [y1, y2, y3, y4, '-', m1, m2, '-', d1, d2] =>
    match digitVal y1, digitVal y2, digitVal y3, digitVal y4,
          digitVal m1, digitVal m2, digitVal d1, digitVal d2 with
    | some a, some b, some c, some d, some e, some f, some g, some h =>
      let y : Int := ((a * 1000 + b * 100 + c * 10 + d : Nat) : Int)
      let m := e * 10 + f
      let dd := g * 10 + h
      if 1 ≤ m ∧ m ≤ 12 ∧ 1 ≤ dd ∧ dd ≤ daysInMonth y m then
        let ms := daysFromCivil y m dd * 86400000
        if ms.natAbs ≤ maxJsDateMs then some ms else none
      else none
    | _, _, _, _, _, _, _, _ => none
  | [sgn, y1, y2, y3, y4, y5, y6, '-', m1, m2, '-', d1, d2] =>
    match digitVal y1, digitVal y2, digitVal y3, digitVal y4, digitVal y5, digitVal y6,
          digitVal m1, digitVal m2, digitVal d1, digitVal d2 with
    | some a, some b, some c, some d, some e, some f, some g, some h, some i, some j =>
      let yn : Nat := a * 100000 + b * 10000 + c * 1000 + d * 100 + e * 10 + f
      let m := g * 10 + h
      let dd := i * 10 + j
      if sgn = '+' ∨ (sgn = '-' ∧ 0 < yn) then
        let y : Int := if sgn = '-' then -(yn : Int) else (yn : Int)
        if 1 ≤ m ∧ m ≤ 12 ∧ 1 ≤ dd ∧ dd ≤ daysInMonth y m then
          let ms := daysFromCivil y m dd * 86400000
          if ms.natAbs ≤ maxJsDateMs then some ms else none
        else none
      else none
    | _, _, _, _, _, _, _, _, _, _ => none
  | _ => none

/-! ## Timestamps and posts -/

/-- A raw timestamp field value: either a JS number or a string
(the two encodings the dashboard's data sources use). -/
inductive Timestamp where
  | num (t : Int)
  | str (s : String)
deriving DecidableEq

/-- JS truthiness of a timestamp value (`0` and `""` are falsy). -/
def Timestamp.truthy : Timestamp → Bool
  | .num t => t != 0
  | .str s => s != ""

/-- A post record, covering the fields the aggregators read from both the
`InstagramPost` and `TikTokPost` variants. Absent optional fields are `none`
(JS `undefined`). -/
structure Post where
  timestamp : Option Timestamp := none
  createTime : Option Timestamp := none
  sentimentScore : Option ℚ := none
  sentimentLabel : Option String := none
  reach : Option Nat := none
  impressions : Option Nat := none
  views : Option Nat := none
  hashtags : List String := []
deriving DecidableEq

/-- Brand identifiers are plain strings; `"Nordstrom"` is the designated
primary brand. -/
abbrev Brand := String

/-- The two post-source platforms. -/
inductive SocialPlatform where
  | instagram
  | tiktok
deriving DecidableEq

/-- Display name of a platform (the TS string union values). -/
def platformName : SocialPlatform → String
  | .instagram => "Instagram"
  | .tiktok => "TikTok"

/-- `posts[brand] || []`: a brand-keyed record of post lists, with a missing
key read as the empty list. -/
def getPosts (posts : Brand → Option (List Post)) (b : Brand) : List Post :=
  (posts b).getD []

/-! ## Reach aggregation (`ReachSection.tsx`, `totalReachByBrand`) -/

/-- The platform-appropriate reach metric of one post:
`reach || impressions || 0` for Instagram, `views || 0` for TikTok
(JS `||` falls through on `undefined` and `0`). -/
def reachOf (platform : SocialPlatform) (p : Post) : Nat :=
  match platform with
  | .instagram =>
    match p.reach with
    | some r => if r = 0 then p.impressions.getD 0 else r
    | none => p.impressions.getD 0
  | .tiktok => p.views.getD 0

/-- The `totalReach` accumulation loop over one brand's posts. -/
def totalReach (platform : SocialPlatform) (ps : List Post) : Nat :=
  ps.foldl (fun acc p => acc + reachOf platform p) 0

/-- First-occurrence replacement, the semantics of JS
`String.prototype.replace` with a string pattern. -/
def jsReplaceFirst (s pat rep : String) : String :=
  match s.splitOn pat with
  | [] => s
  | [x] => x
  | x :: rest => x ++ rep ++ String.intercalate pat rest

/-- The twelve-colour palette of `ReachSection`. -/
def reachPalette : List String :=
  [ "rgba(66, 133, 244, 0.8)"
  , "rgba(219, 68, 55, 0.8)"
  , "rgba(244, 180, 0, 0.8)"
  , "rgba(15, 157, 88, 0.8)"
  , "rgba(171, 71, 188, 0.8)"
  , "rgba(255, 112, 67, 0.8)"
  , "rgba(3, 169, 244, 0.8)"
  , "rgba(0, 188, 212, 0.8)"
  , "rgba(139, 195, 74, 0.8)"
  , "rgba(255, 193, 7, 0.8)"
  , "rgba(121, 85, 72, 0.8)"
  , "rgba(96, 125, 139, 0.8)"
  ]

/-- Output shape of the reach bar chart (`labels` plus its single dataset). -/
structure ReachChart where
  labels : List Brand
  dataLabel : String
  data : List Nat
  backgroundColor : List String
  borderColor : List String
deriving DecidableEq

/-- The `totalReachByBrand` memo of `ReachSection`: per selected brand, the
sum of the platform-appropriate reach metric over that brand's posts. -/
def totalReachByBrand (platform : SocialPlatform) (sel : List Brand)
    (posts : Brand → Option (List Post)) : ReachChart :=
  { labels := sel
    dataLabel := "Total " ++ platformName platform ++ " Reach"
    data := sel.map (fun b => totalReach platform (getPosts posts b))
    backgroundColor :=
      (List.range sel.length).map
        (fun i => reachPalette.getD (i % reachPalette.length) "")
    borderColor :=
      (List.range sel.length).map
        (fun i => jsReplaceFirst (reachPalette.getD (i % reachPalette.length) "") "0.8" "1") }

/-! ## Day bucketing (`SentimentAnalysis` in `ReachSection.tsx`) -/

/-- `formatDateForGrouping`: resolve a timestamp value to epoch milliseconds —
a number below `1e12` is unix epoch seconds and is multiplied by `1000`,
any other number is epoch milliseconds, a string is date-parsed. -/
def timestampToMs : Timestamp → Option Int
  | .num t => some (if t < 10 ^ 12 then t * 1000 else t)
  | .str s => parseIsoDateMs s

/-- `formatDateForGrouping`: the `YYYY-MM-DD` UTC-day key of a timestamp, or
`""` when the value does not parse to a valid `Date`
(`isNaN(date.getTime())`). -/
def formatDateForGrouping (ts : Timestamp) : String :=
  match timestampToMs ts with
  | none => ""
  | some ms => if ms.natAbs ≤ maxJsDateMs then isoDayString ms else ""

/-- Short month names of the `en-US` locale. -/
def monthShortName (m : Nat) : String :=
  match m with
  | 1 => "Jan"
  | 2 => "Feb"
  | 3 => "Mar"
  | 4 => "Apr"
  | 5 => "May"
  | 6 => "Jun"
  | 7 => "Jul"
  | 8 => "Aug"
  | 9 => "Sep"
  | 10 => "Oct"
  | 11 => "Nov"
  | _ => "Dec"

/-- `formatDateForLabel`: renders a `YYYY-MM-DD` or expanded-year
`±YYYYYY-MM-DD` key as the `en-US` `{month: 'short', day: 'numeric'}` label
of that UTC day (the source adds the local timezone offset back so that the
local-time rendering shows the UTC calendar day; the two offset adjustments
cancel, which is what is modelled). -/
def formatDateForLabel (dateStr : String) : String :=
  match parseIsoDateMs dateStr with
  | none => "Invalid Date"
  | some ms =>
    let c := civilFromDays (Int.fdiv ms 86400000)
    monthShortName c.2.1 ++ " " ++ toString c.2.2

/-- `hasData` of the sentiment component: the total number of posts of the
selected brands is positive. -/
def hasData (sel : List Brand) (posts : Brand → Option (List Post)) : Bool :=
  decide (0 < (sel.map (fun b => (getPosts posts b).length)).sum)

/-- The timestamp field read for a platform (`timestamp` for Instagram,
`createTime` for TikTok). -/
def postTimestamp (platform : SocialPlatform) (p : Post) : Option Timestamp :=
  match platform with
  | .instagram => p.timestamp
  | .tiktok => p.createTime

/-- The `(dateKey, score)` contribution of one post to
`comparativeAvgSentimentOverTimeData`, `none` when the post is skipped: the
loop requires a truthy timestamp and a numeric `sentimentScore`, and skips
the post when `formatDateForGrouping` yields the empty (invalid-date) key. -/
def bucketEntry (platform : SocialPlatform) (p : Post) : Option (String × ℚ) :=
  match postTimestamp platform p, p.sentimentScore with
  | some ts, some score =>
    if ts.truthy then
      let dateKey := formatDateForGrouping ts
      if dateKey = "" then none else some (dateKey, score)
    else none
  | some _, none => none
  | none, _ => none

/-- All date keys added to the `allDates` set, in traversal order
(brand-major, then post order). -/
def allKeys (platform : SocialPlatform) (sel : List Brand)
    (posts : Brand → Option (List Post)) : List String :=
  sel.flatMap (fun b =>
    (getPosts posts b).filterMap (fun p => (bucketEntry platform p).map Prod.fst))

/-- Insertion-order deduplication with an accumulator of already-seen keys:
the element order of a JS `Set` built by successive `add` calls (first
occurrence wins). -/
def firstDedupAux (seen : List String) : List String → List String
  | [] => []
  | a :: l => if a ∈ seen then firstDedupAux seen l else a :: firstDedupAux (a :: seen) l

/-- Insertion-order deduplication (first occurrence wins). -/
def firstDedup (l : List String) : List String := firstDedupAux [] l

/-- Sort key of the date comparator `new Date(a).getTime()`: every key
`formatDateForGrouping` emits — a `YYYY-MM-DD` or expanded-year
`±YYYYYY-MM-DD` rendering of an in-range instant — parses, in JS and in this
model alike; the default `0` plays the role of the `NaN` a string in neither
form would give, which no emitted key does. -/
def labelMs (s : String) : Int := (parseIsoDateMs s).getD 0

/-- The comparator relation of `sortedDates` (ascending by parsed time). -/
def dateLe (a b : String) : Prop := labelMs a ≤ labelMs b

instance : DecidableRel dateLe := fun _ _ => Int.decLe _ _

instance : IsTotal String dateLe := ⟨fun _ _ => Int.le_total _ _⟩

instance : IsTrans String dateLe := ⟨fun _ _ _ h1 h2 => le_trans h1 h2⟩

/-- `sortedDates`: the deduplicated date keys of all selected brands, sorted
ascending by their parsed time value. -/
def sortedDates (platform : SocialPlatform) (sel : List Brand)
    (posts : Brand → Option (List Post)) : List String :=
  List.insertionSort dateLe (firstDedup (allKeys platform sel posts))

/-- The scores one list of posts contributes to a given day bucket, in post
order. -/
def postsScoresOn (platform : SocialPlatform) (ps : List Post) (day : String) :
    List ℚ :=
  ps.filterMap (fun p =>
    match bucketEntry platform p with
    | some kv => if kv.1 = day then some kv.2 else none
    | none => none)

/-- Content of `dailyBrandSentiments[day][b]` after the build loops: each
occurrence of `b` in `selectedBrands` appends that brand's matching scores in
post order (`[]` when the map holds no entry). -/
def dayScores (platform : SocialPlatform) (sel : List Brand)
    (posts : Brand → Option (List Post)) (day : String) (b : Brand) : List ℚ :=
  (sel.filter (fun x => x == b)).flatMap
    (fun x => postsScoresOn platform (getPosts posts x) day)

/-- `scores && scores.length > 0 ? sum/length : null`. -/
def meanOpt (l : List ℚ) : Option ℚ :=
  if 0 < l.length then some (l.sum / (l.length : ℚ)) else none

/-- The per-day vector of one brand's series (one entry per sorted date). -/
def brandVector (platform : SocialPlatform) (sel : List Brand)
    (posts : Brand → Option (List Post)) (b : Brand) : List (Option ℚ) :=
  (sortedDates platform sel posts).map
    (fun day => meanOpt (dayScores platform sel posts day b))

/-- The eleven-colour palette of the sentiment component (blue is skipped, it
is reserved for Nordstrom). -/
def vibrantColors : List String :=
  [ "rgba(219, 68, 55, 0.8)"
  , "rgba(244, 180, 0, 0.8)"
  , "rgba(15, 157, 88, 0.8)"
  , "rgba(171, 71, 188, 0.8)"
  , "rgba(255, 112, 67, 0.8)"
  , "rgba(3, 169, 244, 0.8)"
  , "rgba(0, 188, 212, 0.8)"
  , "rgba(139, 195, 74, 0.8)"
  , "rgba(255, 193, 7, 0.8)"
  , "rgba(121, 85, 72, 0.8)"
  , "rgba(96, 125, 139, 0.8)"
  ]

/-- `vibrantColors[i % vibrantColors.length]`. -/
def paletteColor (i : Nat) : String :=
  vibrantColors.getD (i % vibrantColors.length) ""

/-- One chart.js dataset of the time-series chart (constant styling fields
such as `fill` and `tension` are omitted). -/
structure SeriesDataset where
  label : String
  data : List (Option ℚ)
  borderColor : String
  backgroundColor : String
deriving DecidableEq, Inhabited

/-- The labeled-series output contract: a shared label axis plus one
(nullable) vector per brand. -/
structure LabeledSeries where
  labels : List String
  datasets : List SeriesDataset
deriving DecidableEq

/-- The non-primary datasets loop: walks the remaining brand list, skipping
`"Nordstrom"`, assigning palette colours from the running `colorIdx` counter
that only advances on emitted datasets. -/
def otherDatasets (platform : SocialPlatform) (sel : List Brand)
    (posts : Brand → Option (List Post)) : List Brand → Nat → List SeriesDataset
  | [], _ => []
  | b :: rest, colorIdx =>
    if b = "Nordstrom" then otherDatasets platform sel posts rest colorIdx
    else
      { label := b
        data := brandVector platform sel posts b
        borderColor := jsReplaceFirst (paletteColor colorIdx) "0.8" "1"
        backgroundColor := jsReplaceFirst (paletteColor colorIdx) "0.8" "0.1" } ::
      otherDatasets platform sel posts rest (colorIdx + 1)

/-- `comparativeAvgSentimentOverTimeData`: label axis of sorted, formatted
date keys; the Nordstrom dataset first when selected, then the remaining
brands in input order. -/
def comparativeAvgSentimentOverTimeData (platform : SocialPlatform)
    (sel : List Brand) (posts : Brand → Option (List Post)) : LabeledSeries :=
  if hasData sel posts then
    { labels := (sortedDates platform sel posts).map formatDateForLabel
      datasets :=
        (if "Nordstrom" ∈ sel then
          [{ label := "Nordstrom"
             data := brandVector platform sel posts "Nordstrom"
             borderColor := "#004170"
             backgroundColor := "rgba(0, 65, 112, 0.1)" }]
        else []) ++ otherDatasets platform sel posts sel 0 }
  else { labels := [], datasets := [] }

/-- The render-layer test choosing the empty-state fallback for the
time-series chart: the chart is drawn iff `labels.length > 0`. -/
def showsTimeSeriesFallback (out : LabeledSeries) : Bool :=
  !(decide (0 < out.labels.length))

/-! ## Sentiment distribution (`sentimentDistributionData`) -/

/-- The three sentiment buckets. -/
inductive SentClass where
  | pos
  | neu
  | neg
deriving DecidableEq

/-- Truthiness of the `sentimentLabel` field. -/
def labelTruthy (p : Post) : Bool :=
  match p.sentimentLabel with
  | some l => l != ""
  | none => false

/-- The bucket one post falls into, `none` when the post carries neither a
numeric score nor a truthy label: score sign decides when the score is
numeric, otherwise `'positive'`/`'negative'` map to their buckets and any
other truthy label is neutral. -/
def classify (p : Post) : Option SentClass :=
  match p.sentimentScore with
  | some s => some (if 0 < s then .pos else if s < 0 then .neg else .neu)
  | none =>
    match p.sentimentLabel with
    | some l =>
      if l = "" then none
      else some (if l = "positive" then .pos else if l = "negative" then .neg else .neu)
    | none => none

/-- `positiveCount` accumulated by the distribution loop. -/
def positiveCount (ps : List Post) : Nat :=
  ps.countP (fun p => classify p == some .pos)

/-- `neutralCount` accumulated by the distribution loop. -/
def neutralCount (ps : List Post) : Nat :=
  ps.countP (fun p => classify p == some .neu)

/-- `negativeCount` accumulated by the distribution loop. -/
def negativeCount (ps : List Post) : Nat :=
  ps.countP (fun p => classify p == some .neg)

/-- One brand's entry of the distribution output (chart colouring constants
omitted). -/
structure BrandDistribution where
  brandName : Brand
  positive : Nat
  neutral : Nat
  negative : Nat
deriving DecidableEq

/-- `sentimentDistributionData`: per-brand bucket counts, dropping brands
whose three counts are all zero (`.filter(data => data.some(d => d > 0))`). -/
def sentimentDistributionData (sel : List Brand)
    (posts : Brand → Option (List Post)) : List BrandDistribution :=
  if hasData sel posts then
    (sel.map (fun b =>
      let ps := getPosts posts b
      BrandDistribution.mk b (positiveCount ps) (neutralCount ps) (negativeCount ps))).filter
      (fun d => d.positive != 0 || d.neutral != 0 || d.negative != 0)
  else []

/-! ## Hashtag aggregation (`HashtagSection.tsx`)

`HashtagSection` delegates the aggregation to `generateUnifiedHashtagChart`
from `src/utils/chartUtils.ts`, a repository file that is not part of the
provided sources; it is modelled here from spec §4.3. -/

/-- Modelled from the spec: hashtag extraction of `generateUnifiedHashtagChart`
(absent `src/utils/chartUtils.ts`) — the case-insensitive `#`-prefixed tokens
of a post, taken from the post's hashtag field. -/
def extractHashtags (p : Post) : List String :=
  p.hashtags.map (fun h => h.toLower)

/-- The platform-selected post list of one brand from the two context maps. -/
def platformPosts (insta tiktok : Brand → Option (List Post))
    (platform : SocialPlatform) (b : Brand) : List Post :=
  match platform with
  | .instagram => getPosts insta b
  | .tiktok => getPosts tiktok b

/-- Modelled from the spec: the hashtag occurrences pooled across all selected
brands on the given platform, in traversal order. -/
def pooledTagOccurrences (insta tiktok : Brand → Option (List Post))
    (sel : List Brand) (platform : SocialPlatform) : List String :=
  sel.flatMap (fun b => (platformPosts insta tiktok platform b).flatMap extractHashtags)

/-- Occurrence count of one hashtag in an occurrence pool. -/
def tagCount (occ : List String) (h : String) : Nat := occ.count h

/-- Modelled from the spec: the top-K ranking order — count descending, ties
broken by first-encountered position (stable). -/
def tagRankLe (occ : List String) (a b : String) : Prop :=
  tagCount occ b < tagCount occ a ∨
    (tagCount occ a = tagCount occ b ∧ occ.indexOf a ≤ occ.indexOf b)

instance (occ : List String) : DecidableRel (tagRankLe occ) := fun a b => by
  unfold tagRankLe
  infer_instance

/-- Output shape of the unified hashtag chart: the top-K label axis plus one
frequency vector per brand (zero-filled). -/
structure HashtagChart where
  labels : List String
  datasets : List (Brand × List Nat)
deriving DecidableEq

/-- Modelled from the spec: `generateUnifiedHashtagChart` of the absent
`src/utils/chartUtils.ts` — pools hashtags of the selected brands on a
platform, picks the global top-5 (count descending, first-seen ties), and
reports each brand's own count against that shared label set. -/
def generateUnifiedHashtagChart (insta tiktok : Brand → Option (List Post))
    (sel : List Brand) (platform : SocialPlatform) : HashtagChart :=
  let occ := pooledTagOccurrences insta tiktok sel platform
  let labels := (List.insertionSort (tagRankLe occ) (firstDedup occ)).take 5
  { labels := labels
    datasets := sel.map (fun b =>
      (b, labels.map (fun h =>
        tagCount ((platformPosts insta tiktok platform b).flatMap extractHashtags) h))) }

/-- `hasData` of `HashtagSection`: some selected brand has posts on either
platform (note: either, not only the displayed one). -/
def hashtagHasData (insta tiktok : Brand → Option (List Post))
    (sel : List Brand) : Bool :=
  sel.any (fun b =>
    decide (0 < (getPosts insta b).length) || decide (0 < (getPosts tiktok b).length))

/-- The `unifiedChartData` memo: empty labels and datasets without data,
otherwise the generated chart. -/
def unifiedChartData (insta tiktok : Brand → Option (List Post))
    (sel : List Brand) (platform : SocialPlatform) : HashtagChart :=
  if hashtagHasData insta tiktok sel then
    generateUnifiedHashtagChart insta tiktok sel platform
  else { labels := [], datasets := [] }

/-- The render-layer test choosing the hashtag fallback:
`!hasData || unifiedChartData.labels.length === 0`. -/
def showsHashtagFallback (insta tiktok : Brand → Option (List Post))
    (sel : List Brand) (platform : SocialPlatform) : Bool :=
  !(hashtagHasData insta tiktok sel) ||
    decide ((unifiedChartData insta tiktok sel platform).labels.length = 0)

/-! ## Concrete fixtures used by counterexamples and witnesses -/

/-- A post with a valid, parseable timestamp but no sentiment signal. -/
def noScorePost : Post := { timestamp := some (.str "2024-01-05") }

/-- Dataset holding only `noScorePost` under brand `"A"`. -/
def noScorePosts : Brand → Option (List Post) :=
  fun b => if b = "A" then some [noScorePost] else none

/-- Two posts of brand `"A"` on the same day with scores `1/2` and `-1/2`. -/
def halfPosts : Brand → Option (List Post) :=
  fun b => if b = "A" then some
    [ { timestamp := some (.str "2024-01-01"), sentimentScore := some (1/2) }
    , { timestamp := some (.str "2024-01-01"), sentimentScore := some (-1/2) } ]
  else none

/-- The dataset `comparativeAvgSentimentOverTimeData` emits for brand `"A"`
of `halfPosts` (first palette colour, mean score `0` on the single day). -/
def halfDataset : SeriesDataset :=
  { label := "A"
    data := [some 0]
    borderColor := "rgba(219, 68, 55, 1)"
    backgroundColor := "rgba(219, 68, 55, 0.1)" }

/-- A post whose timestamp is a truthy but unparseable string. -/
def badTsPost : Post :=
  { timestamp := some (.str "garbage!!")
    createTime := some (.str "garbage!!")
    sentimentScore := some 1
    reach := some 7
    views := some 9
    hashtags := ["#x"] }

/-- One (contentless) post under brand `"Gucci"`. -/
def gucciPosts : Brand → Option (List Post) :=
  fun b => if b = "Gucci" then some [{}] else none

/-- The input map with one extra post appended to one brand's list (used to
state that a skipped post changes nothing). -/
def postsExtend (posts : Brand → Option (List Post)) (b : Brand) (p : Post) :
    Brand → Option (List Post) :=
  fun x => if x = b then some (getPosts posts x ++ [p]) else posts x

/-- A post whose timestamp field holds the falsy numeric value `0`. -/
def zeroTsPost : Post :=
  { timestamp := some (.num 0)
    createTime := some (.num 0)
    sentimentScore := some 1 }

/-- One brand with a post whose numeric timestamp `10^12 - 1` is read as
epoch seconds — landing on the expanded-year day `+033658-09-27` — listed
before a post on `2024-01-01`, so that insertion order, lexicographic order
and chronological order of the two keys all differ. -/
def farFuturePosts : Brand → Option (List Post) :=
  fun b => if b = "A" then some
    [ { timestamp := some (.num (10 ^ 12 - 1)), sentimentScore := some 1 }
    , { timestamp := some (.str "2024-01-01"), sentimentScore := some 1 } ]
  else none

/-- Hashtag fixture: brand `"A"` tagging `#Sale`, `#new`, `#sale`. -/
def hashtagInsta : Brand → Option (List Post) :=
  fun b => if b = "A" then some
    [ { hashtags := ["#Sale", "#new"] }
    , { hashtags := ["#sale"] } ]
  else none

/-! ## Helper lemmas -/

theorem mem_firstDedupAux (l : List String) :
    ∀ (seen : List String) (x : String),
      x ∈ firstDedupAux seen l ↔ x ∈ l ∧ x ∉ seen := by
  induction l with
  | nil =>
    intro seen x
    simp [firstDedupAux]
  | cons a l ih =>
    intro seen x
    by_cases ha : a ∈ seen
    · rw [firstDedupAux, if_pos ha, ih]
      constructor
      · rintro ⟨h1, h2⟩
        exact ⟨List.mem_cons_of_mem a h1, h2⟩
      · rintro ⟨h1, h2⟩
        rcases List.mem_cons.1 h1 with rfl | h1
        · exact absurd ha h2
        · exact ⟨h1, h2⟩
    · rw [firstDedupAux, if_neg ha]
      constructor
      · intro hmem
        rcases List.mem_cons.1 hmem with rfl | hmem
        · exact ⟨List.mem_cons_self x l, ha⟩
        · obtain ⟨h1, h2⟩ := (ih (a :: seen) x).1 hmem
          exact ⟨List.mem_cons_of_mem a h1,
            fun hx => h2 (List.mem_cons_of_mem a hx)⟩
      · rintro ⟨h1, h2⟩
        rcases List.mem_cons.1 h1 with rfl | h1
        · exact List.mem_cons_self x _
        · by_cases hxa : x = a
          · subst hxa
            exact List.mem_cons_self x _
          · refine List.mem_cons_of_mem a ((ih (a :: seen) x).2 ⟨h1, ?_⟩)
            intro hx
            rcases List.mem_cons.1 hx with h | h
            · exact hxa h
            · exact h2 h

theorem mem_firstDedup (l : List String) (a : String) :
    a ∈ firstDedup l ↔ a ∈ l := by
  rw [firstDedup, mem_firstDedupAux]
  simp

theorem nodup_firstDedupAux (l : List String) :
    ∀ seen : List String, (firstDedupAux seen l).Nodup := by
  induction l with
  | nil =>
    intro seen
    simp [firstDedupAux]
  | cons a l ih =>
    intro seen
    by_cases ha : a ∈ seen
    · rw [firstDedupAux, if_pos ha]
      exact ih seen
    · rw [firstDedupAux, if_neg ha]
      refine List.nodup_cons.2 ⟨?_, ih (a :: seen)⟩
      intro hmem
      exact ((mem_firstDedupAux l (a :: seen) a).1 hmem).2 (List.mem_cons_self a seen)

theorem nodup_firstDedup (l : List String) : (firstDedup l).Nodup :=
  nodup_firstDedupAux l []

theorem firstDedup_eq_nil_iff (l : List String) : firstDedup l = [] ↔ l = [] := by
  cases l with
  | nil => simp [firstDedup, firstDedupAux]
  | cons a l => simp [firstDedup, firstDedupAux]

theorem totalReach_eq_sum (platform : SocialPlatform) (ps : List Post) :
    totalReach platform ps = (ps.map (reachOf platform)).sum := by
  suffices h : ∀ acc : Nat, ps.foldl (fun acc p => acc + reachOf platform p) acc
      = acc + (ps.map (reachOf platform)).sum by
    simpa [totalReach] using h 0
  induction ps with
  | nil => intro acc; simp
  | cons p ps ih =>
    intro acc
    simp [List.foldl_cons, ih, Nat.add_assoc]

theorem meanOpt_eq_none_iff (l : List ℚ) : meanOpt l = none ↔ l = [] := by
  unfold meanOpt
  cases l <;> simp

theorem classify_isSome (p : Post) :
    (classify p).isSome = (p.sentimentScore.isSome || labelTruthy p) := by
  unfold classify labelTruthy
  cases hs : p.sentimentScore with
  | some s => simp
  | none =>
    cases hl : p.sentimentLabel with
    | none => simp
    | some l =>
      by_cases hl' : l = "" <;> simp [hl']

theorem counts_sum (ps : List Post) :
    positiveCount ps + neutralCount ps + negativeCount ps
      = (ps.filter (fun q => q.sentimentScore.isSome || labelTruthy q)).length := by
  induction ps with
  | nil => simp [positiveCount, neutralCount, negativeCount]
  | cons p ps ih =>
    have hcl := classify_isSome p
    simp only [positiveCount, neutralCount, negativeCount] at ih ⊢
    rw [List.countP_cons, List.countP_cons, List.countP_cons, List.filter_cons]
    cases hc : classify p with
    | none =>
      rw [hc] at hcl
      simp only [Option.isSome_none] at hcl
      simp [hc, ← hcl, ih]
    | some c =>
      rw [hc] at hcl
      simp only [Option.isSome_some] at hcl
      cases c <;> simp [hc, ← hcl, ih] <;> omega

theorem otherDatasets_map_label (platform : SocialPlatform) (sel : List Brand)
    (posts : Brand → Option (List Post)) (l : List Brand) (i : Nat) :
    (otherDatasets platform sel posts l i).map SeriesDataset.label
      = l.filter (fun b => b != "Nordstrom") := by
  induction l generalizing i with
  | nil => simp [otherDatasets]
  | cons b rest ih =>
    by_cases hb : b = "Nordstrom"
    · simp [otherDatasets, hb, ih]
    · simp [otherDatasets, hb, ih]

theorem otherDatasets_data (platform : SocialPlatform) (sel : List Brand)
    (posts : Brand → Option (List Post)) (l : List Brand) (i : Nat)
    (d : SeriesDataset) (hd : d ∈ otherDatasets platform sel posts l i) :
    d.data = brandVector platform sel posts d.label := by
  induction l generalizing i with
  | nil => simp [otherDatasets] at hd
  | cons b rest ih =>
    by_cases hb : b = "Nordstrom"
    · rw [otherDatasets, if_pos hb] at hd
      exact ih i hd
    · rw [otherDatasets, if_neg hb] at hd
      rcases List.mem_cons.1 hd with rfl | h
      · rfl
      · exact ih _ h

theorem otherDatasets_map_border (platform : SocialPlatform) (sel : List Brand)
    (posts : Brand → Option (List Post)) (l : List Brand) (i : Nat) :
    (otherDatasets platform sel posts l i).map SeriesDataset.borderColor
      = (List.range (l.filter (fun b => b != "Nordstrom")).length).map
          (fun j => jsReplaceFirst (paletteColor (i + j)) "0.8" "1") := by
  induction l generalizing i with
  | nil => simp [otherDatasets]
  | cons b rest ih =>
    by_cases hb : b = "Nordstrom"
    · simp [otherDatasets, hb, ih]
    · rw [otherDatasets, if_neg hb]
      rw [List.map_cons, ih (i + 1)]
      rw [List.filter_cons_of_pos (by simp [hb])]
      rw [List.length_cons, List.range_succ_eq_map, List.map_cons, List.map_map]
      congr 1
      apply List.map_congr_left
      intro j _
      have hij : i + 1 + j = i + (j + 1) := by omega
      simp only [Function.comp_apply, Nat.succ_eq_add_one, hij]

theorem comparative_datasets_data (platform : SocialPlatform) (sel : List Brand)
    (posts : Brand → Option (List Post)) (d : SeriesDataset)
    (hd : d ∈ (comparativeAvgSentimentOverTimeData platform sel posts).datasets) :
    d.data = brandVector platform sel posts d.label := by
  unfold comparativeAvgSentimentOverTimeData at hd
  by_cases h : hasData sel posts
  · rw [if_pos h] at hd
    simp only [List.mem_append] at hd
    rcases hd with h1 | h2
    · by_cases hn : "Nordstrom" ∈ sel
      · rw [if_pos hn] at h1
        rcases List.mem_singleton.1 h1 with rfl
        rfl
      · rw [if_neg hn] at h1
        simp at h1
    · exact otherDatasets_data platform sel posts sel 0 d h2
  · rw [if_neg h] at hd
    simp at hd

theorem hasData_false_posts (sel : List Brand) (posts : Brand → Option (List Post))
    (h : hasData sel posts = false) (b : Brand) (hb : b ∈ sel) :
    getPosts posts b = [] := by
  unfold hasData at h
  rw [decide_eq_false_iff_not, Nat.not_lt, Nat.le_zero, List.sum_eq_zero_iff] at h
  have := h ((getPosts posts b).length) (List.mem_map.2 ⟨b, hb, rfl⟩)
  exact List.length_eq_zero.1 this

theorem sortedDates_of_not_hasData (platform : SocialPlatform) (sel : List Brand)
    (posts : Brand → Option (List Post)) (h : hasData sel posts = false) :
    sortedDates platform sel posts = [] := by
  unfold sortedDates allKeys
  have hflat : sel.flatMap (fun b =>
      (getPosts posts b).filterMap (fun p => (bucketEntry platform p).map Prod.fst)) = [] := by
    rw [List.flatMap_eq_nil_iff]
    intro b hb
    rw [hasData_false_posts sel posts h b hb]
    rfl
  rw [hflat]
  simp [firstDedup]

theorem comparative_labels (platform : SocialPlatform) (sel : List Brand)
    (posts : Brand → Option (List Post)) :
    (comparativeAvgSentimentOverTimeData platform sel posts).labels
      = (sortedDates platform sel posts).map formatDateForLabel := by
  unfold comparativeAvgSentimentOverTimeData
  by_cases h : hasData sel posts
  · rw [if_pos h]
  · rw [if_neg h]
    rw [sortedDates_of_not_hasData platform sel posts (by simpa using h)]
    rfl

/-! ## Claims -/

/-- Claim C1, counterexample: the claim says the label axis equals the sorted
union of the valid UTC day keys of ALL input posts; but a post with the valid
parseable day key `2024-01-05` and no numeric sentiment score contributes no
label at all, so the axis is empty where the claim requires `2024-01-05` to
appear. -/
theorem c1_counterexample :
    (comparativeAvgSentimentOverTimeData .instagram ["A"] noScorePosts).labels = []
      ∧ formatDateForGrouping (.str "2024-01-05") = "2024-01-05" := by
  exact ⟨by decide, by decide⟩

/-- Claim C1 (amended): the label axis of the day-bucketed sentiment-over-time
aggregation is the en-US short-date formatting of the ascending-sorted,
duplicate-free union of the valid UTC calendar-day keys of those input posts
that carry a truthy timestamp and a numeric sentiment score; a post whose
timestamp fails to parse contributes to no bucket. -/
theorem c1_label_axis (platform : SocialPlatform) (sel : List Brand)
    (posts : Brand → Option (List Post)) :
    (comparativeAvgSentimentOverTimeData platform sel posts).labels
        = (sortedDates platform sel posts).map formatDateForLabel
      ∧ List.Sorted dateLe (sortedDates platform sel posts)
      ∧ (sortedDates platform sel posts).Nodup
      ∧ (∀ k : String, k ∈ sortedDates platform sel posts ↔
          ∃ b ∈ sel, ∃ p ∈ getPosts posts b, ∃ s : ℚ,
            bucketEntry platform p = some (k, s))
      ∧ (∀ p : Post, ∀ ts : Timestamp, postTimestamp platform p = some ts →
          formatDateForGrouping ts = "" → bucketEntry platform p = none) := by
  refine ⟨comparative_labels platform sel posts, List.sorted_insertionSort dateLe _,
    ((List.perm_insertionSort dateLe _).nodup_iff).2 (nodup_firstDedup _), ?_, ?_⟩
  · intro k
    unfold sortedDates
    rw [(List.perm_insertionSort dateLe _).mem_iff, mem_firstDedup]
    unfold allKeys
    rw [List.mem_flatMap]
    constructor
    · rintro ⟨b, hb, hk⟩
      rw [List.mem_filterMap] at hk
      obtain ⟨p, hp, hpk⟩ := hk
      rw [Option.map_eq_some'] at hpk
      obtain ⟨kv, hkv, hk1⟩ := hpk
      subst hk1
      exact ⟨b, hb, p, hp, kv.2, by rw [hkv]⟩
    · rintro ⟨b, hb, p, hp, s, hs⟩
      refine ⟨b, hb, List.mem_filterMap.2 ⟨p, hp, ?_⟩⟩
      rw [hs]
      rfl
  · intro p ts hts hbad
    unfold bucketEntry
    rw [hts]
    cases hsc : p.sentimentScore with
    | none => rfl
    | some s =>
      by_cases htr : ts.truthy <;> simp [htr, hbad]

/-- Witness for the amended C1: a truthy but unparseable timestamp yields no
bucket entry at a concrete post; and on a concrete input mixing a
`2024-01-01` post with an expanded-year `+033658-09-27` post (listed first),
the axis is sorted chronologically — not by insertion and not
lexicographically, which would both put `+033658-09-27` first — and is
formatted as en-US short dates. -/
theorem c1_label_axis_witness :
    bucketEntry .instagram
        ({ timestamp := some (.str "not-a-date"), sentimentScore := some 1 } : Post) = none
      ∧ sortedDates .instagram ["A"] farFuturePosts = ["2024-01-01", "+033658-09-27"]
      ∧ (comparativeAvgSentimentOverTimeData .instagram ["A"] farFuturePosts).labels
          = ["Jan 1", "Sep 27"] :=
  ⟨(c1_label_axis .instagram ["A"] noScorePosts).2.2.2.2 _ (.str "not-a-date") rfl
      (by decide),
    by decide, by decide⟩

/-- Claim C2: the distribution classifies a numeric score by sign, falls back
to a truthy `sentimentLabel` mapped directly, excludes posts with neither, and
the three counts sum to the number of posts carrying a numeric score or a
truthy label; entries of the emitted distribution carry exactly these counts
for their brand. -/
theorem c2_sentiment_distribution (sel : List Brand)
    (posts : Brand → Option (List Post)) (ps : List Post) (p : Post) (s : ℚ)
    (l : String) :
    positiveCount ps + neutralCount ps + negativeCount ps
        = (ps.filter (fun q => q.sentimentScore.isSome || labelTruthy q)).length
      ∧ (p.sentimentScore = some s → classify p
          = some (if 0 < s then .pos else if s < 0 then .neg else .neu))
      ∧ (p.sentimentScore = none → p.sentimentLabel = some l → l ≠ "" →
          classify p = some (if l = "positive" then .pos
            else if l = "negative" then .neg else .neu))
      ∧ (p.sentimentScore = none → labelTruthy p = false → classify p = none)
      ∧ (∀ e ∈ sentimentDistributionData sel posts,
          e.positive = positiveCount (getPosts posts e.brandName)
            ∧ e.neutral = neutralCount (getPosts posts e.brandName)
            ∧ e.negative = negativeCount (getPosts posts e.brandName)) := by
  refine ⟨counts_sum ps, ?_, ?_, ?_, ?_⟩
  · intro hs
    simp [classify, hs]
  · intro hs hl hne
    simp [classify, hs, hl, hne]
  · intro hs hl
    unfold classify
    rw [hs]
    unfold labelTruthy at hl
    cases hlb : p.sentimentLabel with
    | none => rfl
    | some l' =>
      rw [hlb] at hl
      simp only [bne_eq_false_iff_eq] at hl
      simp [hl]
  · intro e he
    unfold sentimentDistributionData at he
    by_cases h : hasData sel posts
    · rw [if_pos h] at he
      obtain ⟨hmem, _⟩ := List.mem_filter.1 he
      obtain ⟨b, _, heq⟩ := List.mem_map.1 hmem
      subst heq
      exact ⟨rfl, rfl, rfl⟩
    · rw [if_neg h] at he
      simp at he

/-- Witness for C2 at concrete posts: the counts sum, and a score of `1/2`
classifies as positive. -/
theorem c2_sentiment_distribution_witness :
    (positiveCount (getPosts halfPosts "A") + neutralCount (getPosts halfPosts "A")
        + negativeCount (getPosts halfPosts "A")
      = ((getPosts halfPosts "A").filter
          (fun q => q.sentimentScore.isSome || labelTruthy q)).length)
      ∧ classify ({ sentimentScore := some (1/2) } : Post) = some .pos := by
  refine ⟨(c2_sentiment_distribution ["A"] halfPosts (getPosts halfPosts "A")
    ({ sentimentScore := some (1/2) } : Post) (1/2) "positive").1, ?_⟩
  have h := (c2_sentiment_distribution ["A"] halfPosts (getPosts halfPosts "A")
    ({ sentimentScore := some (1/2) } : Post) (1/2) "positive").2.1 rfl
  rw [h]
  norm_num

/-- Claim C3: at each emitted label position, a brand's value is the
arithmetic mean of that brand's qualifying scores on that day when at least
one exists, and `null` when none exists. -/
theorem c3_daily_mean (platform : SocialPlatform) (sel : List Brand)
    (posts : Brand → Option (List Post)) (d : SeriesDataset)
    (hd : d ∈ (comparativeAvgSentimentOverTimeData platform sel posts).datasets)
    (i : Nat) (hi : i < d.data.length) :
    (dayScores platform sel posts ((sortedDates platform sel posts).getD i "") d.label ≠ [] →
        d.data.getD i none
          = some ((dayScores platform sel posts
                ((sortedDates platform sel posts).getD i "") d.label).sum
              / ((dayScores platform sel posts
                ((sortedDates platform sel posts).getD i "") d.label).length : ℚ)))
      ∧ (dayScores platform sel posts
            ((sortedDates platform sel posts).getD i "") d.label = [] →
          d.data.getD i none = none) := by
  have hdata := comparative_datasets_data platform sel posts d hd
  have hi' : i < (sortedDates platform sel posts).length := by
    rw [hdata] at hi
    unfold brandVector at hi
    simpa using hi
  have hget : d.data.getD i none
      = meanOpt (dayScores platform sel posts
          ((sortedDates platform sel posts).getD i "") d.label) := by
    rw [hdata]
    unfold brandVector
    rw [List.getD_eq_getElem _ _ (by simpa using hi'), List.getElem_map,
        List.getD_eq_getElem _ _ hi']
  constructor
  · intro hne
    rw [hget]
    unfold meanOpt
    rw [if_pos (List.length_pos.2 hne)]
  · intro he
    rw [hget, he]
    rfl

/-- Witness for C3: brand `"A"` of `halfPosts` has scores `1/2` and `-1/2` on
`2024-01-01`, and the emitted value there is the mean `0` — not `null`. -/
theorem c3_daily_mean_witness :
    ((comparativeAvgSentimentOverTimeData .instagram ["A"] halfPosts).datasets.getD 0
        default).data.getD 0 none = some 0 := by
  have hlen : 0 < (comparativeAvgSentimentOverTimeData .instagram ["A"]
      halfPosts).datasets.length := by decide
  have hd : (comparativeAvgSentimentOverTimeData .instagram ["A"] halfPosts).datasets.getD 0
        default
      ∈ (comparativeAvgSentimentOverTimeData .instagram ["A"] halfPosts).datasets := by
    rw [List.getD_eq_getElem _ _ hlen]
    exact List.getElem_mem hlen
  have h := (c3_daily_mean .instagram ["A"] halfPosts _ hd 0 (by decide)).1 (by decide)
  rw [h]
  have hds : dayScores .instagram ["A"] halfPosts
      ((sortedDates .instagram ["A"] halfPosts).getD 0 "")
      ((comparativeAvgSentimentOverTimeData .instagram ["A"]
        halfPosts).datasets.getD 0 default).label
      = [1/2, -1/2] := by rfl
  rw [hds]
  norm_num [List.sum_cons, List.sum_nil]

/-- Claim C4: the reach aggregator emits, per selected brand, the sum of the
platform-appropriate metric over that brand's posts; an empty or absent post
list yields `0` and `n` posts of reach `r` (views `v`) each sum to `n*r`
(`n*v`). -/
theorem c4_total_reach (platform : SocialPlatform) (sel : List Brand)
    (posts : Brand → Option (List Post)) (n r v : Nat) :
    (totalReachByBrand platform sel posts).data
        = sel.map (fun b => ((getPosts posts b).map (reachOf platform)).sum)
      ∧ totalReach platform [] = 0
      ∧ totalReach .instagram (List.replicate n { reach := some r }) = n * r
      ∧ totalReach .tiktok (List.replicate n { views := some v }) = n * v := by
  refine ⟨?_, rfl, ?_, ?_⟩
  · unfold totalReachByBrand
    simp only
    apply List.map_congr_left
    intro b _
    exact totalReach_eq_sum platform (getPosts posts b)
  · rw [totalReach_eq_sum, List.map_replicate]
    have hr : reachOf .instagram ({ reach := some r } : Post) = r := by
      unfold reachOf
      by_cases h : r = 0 <;> simp [h]
    rw [hr, List.sum_replicate, smul_eq_mul]
  · rw [totalReach_eq_sum, List.map_replicate]
    have hv : reachOf .tiktok ({ views := some v } : Post) = v := rfl
    rw [hv, List.sum_replicate, smul_eq_mul]

/-- Claim C5: a post with an unparseable timestamp contributes to no day
bucket, yet is still counted by reach aggregation and its hashtags are still
tallied; no aggregator errors (all embedded aggregators are total). -/
theorem c5_unparseable_timestamp (platform : SocialPlatform) (p : Post)
    (ts : Timestamp) (ps : List Post) (h : String)
    (hts : postTimestamp platform p = some ts)
    (hbad : formatDateForGrouping ts = "") :
    bucketEntry platform p = none
      ∧ totalReach platform (ps ++ [p]) = totalReach platform ps + reachOf platform p
      ∧ List.count h ((ps ++ [p]).flatMap extractHashtags)
          = List.count h (ps.flatMap extractHashtags)
            + List.count h (extractHashtags p) := by
  refine ⟨?_, ?_, ?_⟩
  · unfold bucketEntry
    rw [hts]
    cases hsc : p.sentimentScore with
    | none => rfl
    | some s =>
      by_cases htr : ts.truthy <;> simp [htr, hbad]
  · rw [totalReach_eq_sum, totalReach_eq_sum, List.map_append, List.sum_append]
    simp
  · rw [List.flatMap_append, List.count_append]
    simp

/-- Witness for C5 at a concrete post with timestamp `"garbage!!"`. -/
theorem c5_unparseable_timestamp_witness :
    bucketEntry .instagram badTsPost = none
      ∧ totalReach .instagram ([] ++ [badTsPost])
          = totalReach .instagram [] + reachOf .instagram badTsPost
      ∧ List.count "#x" (([] ++ [badTsPost]).flatMap extractHashtags)
          = List.count "#x" (([] : List Post).flatMap extractHashtags)
            + List.count "#x" (extractHashtags badTsPost) :=
  c5_unparseable_timestamp .instagram badTsPost (.str "garbage!!") [] "#x" rfl (by decide)

/-- Claim C6: a numeric timestamp is scaled from epoch seconds to
milliseconds exactly when it is below the `1e12` threshold, and is taken as
epoch milliseconds otherwise; in the range where both readings are possible
the seconds reading equals keying the value times `1000`; the bucket key is
the `YYYY-MM-DD` rendering of the UTC day, as witnessed on concrete
instants. -/
theorem c6_timestamp_threshold (t s : Int) :
    (t < 10 ^ 12 → formatDateForGrouping (.num t)
        = (if (t * 1000).natAbs ≤ maxJsDateMs then isoDayString (t * 1000) else ""))
      ∧ (10 ^ 12 ≤ t → formatDateForGrouping (.num t)
          = (if t.natAbs ≤ maxJsDateMs then isoDayString t else ""))
      ∧ (10 ^ 9 ≤ s → s < 10 ^ 12 →
          formatDateForGrouping (.num s) = formatDateForGrouping (.num (s * 1000)))
      ∧ formatDateForGrouping (.num 86399) = "1970-01-01"
      ∧ formatDateForGrouping (.num 86400) = "1970-01-02"
      ∧ formatDateForGrouping (.num (10 ^ 12)) = "2001-09-09"
      ∧ formatDateForGrouping (.num (10 ^ 12 - 1)) = "+033658-09-27"
      ∧ formatDateForGrouping (.str "2024-01-02") = "2024-01-02" := by
  refine ⟨?_, ?_, ?_, by decide, by decide, by decide, by decide, by decide⟩
  · intro ht
    simp only [formatDateForGrouping, timestampToMs]
    rw [if_pos ht]
  · intro ht
    simp only [formatDateForGrouping, timestampToMs]
    rw [if_neg (not_lt.2 ht)]
  · intro h1 h2
    have h3 : ¬ s * 1000 < 10 ^ 12 := by nlinarith
    simp only [formatDateForGrouping, timestampToMs]
    rw [if_pos h2, if_neg h3]

/-- Witness for C6: the instant one billion, read as epoch seconds, lands in
the same bucket as its millisecond form `1e12`. -/
theorem c6_timestamp_threshold_witness :
    formatDateForGrouping (.num (10 ^ 9)) = formatDateForGrouping (.num (10 ^ 9 * 1000)) :=
  (c6_timestamp_threshold 0 (10 ^ 9)).2.2.1 (by norm_num) (by norm_num)

/-- Claim C7: when the primary brand is selected (and there is data to chart)
its series is emitted first, the remaining brands follow in input order, and
their colours are drawn from the repeating palette by position among
non-primary brands. -/
theorem c7_primary_first (platform : SocialPlatform) (sel : List Brand)
    (posts : Brand → Option (List Post))
    (hN : "Nordstrom" ∈ sel) (hD : hasData sel posts = true) :
    (comparativeAvgSentimentOverTimeData platform sel posts).datasets.map
        SeriesDataset.label
        = "Nordstrom" :: sel.filter (fun b => b != "Nordstrom")
      ∧ (comparativeAvgSentimentOverTimeData platform sel posts).datasets.map
          SeriesDataset.borderColor
        = "#004170" :: (List.range (sel.filter (fun b => b != "Nordstrom")).length).map
            (fun j => jsReplaceFirst (paletteColor j) "0.8" "1") := by
  unfold comparativeAvgSentimentOverTimeData
  rw [if_pos hD, if_pos hN]
  constructor
  · simp only [List.map_append, otherDatasets_map_label, List.map_cons, List.map_nil,
      List.singleton_append]
  · simp only [List.map_append, otherDatasets_map_border, List.map_cons, List.map_nil,
      List.singleton_append, Nat.zero_add]

/-- Witness for C7 at a concrete two-brand selection. -/
theorem c7_primary_first_witness :
    (comparativeAvgSentimentOverTimeData .instagram ["Gucci", "Nordstrom"]
        gucciPosts).datasets.map SeriesDataset.label
        = "Nordstrom" :: ["Gucci", "Nordstrom"].filter (fun b => b != "Nordstrom")
      ∧ (comparativeAvgSentimentOverTimeData .instagram ["Gucci", "Nordstrom"]
          gucciPosts).datasets.map SeriesDataset.borderColor
        = "#004170" :: (List.range ((["Gucci", "Nordstrom"].filter
            (fun b => b != "Nordstrom")).length)).map
            (fun j => jsReplaceFirst (paletteColor j) "0.8" "1") :=
  c7_primary_first .instagram ["Gucci", "Nordstrom"] gucciPosts (by decide) (by decide)

/-- Claim C8: every emitted vector has exactly one entry per label, in label
order, with `null` exactly at the positions where the brand has no qualifying
observation; the render layer's fallback fires exactly when the label list is
empty. -/
theorem c8_labeled_series_invariant (platform : SocialPlatform) (sel : List Brand)
    (posts : Brand → Option (List Post)) :
    (∀ d ∈ (comparativeAvgSentimentOverTimeData platform sel posts).datasets,
        d.data.length
            = (comparativeAvgSentimentOverTimeData platform sel posts).labels.length
          ∧ ∀ i, i < d.data.length →
              (d.data.getD i none = none ↔
                dayScores platform sel posts
                  ((sortedDates platform sel posts).getD i "") d.label = []))
      ∧ (showsTimeSeriesFallback (comparativeAvgSentimentOverTimeData platform sel posts)
            = true
          ↔ (comparativeAvgSentimentOverTimeData platform sel posts).labels = []) := by
  constructor
  · intro d hd
    have hdata := comparative_datasets_data platform sel posts d hd
    constructor
    · rw [hdata, comparative_labels]
      unfold brandVector
      rw [List.length_map, List.length_map]
    · intro i hi
      have hi' : i < (sortedDates platform sel posts).length := by
        rw [hdata] at hi
        unfold brandVector at hi
        simpa using hi
      rw [hdata]
      unfold brandVector
      rw [List.getD_eq_getElem _ _ (by simpa using hi'), List.getElem_map,
          List.getD_eq_getElem _ _ hi']
      exact meanOpt_eq_none_iff _
  · unfold showsTimeSeriesFallback
    constructor
    · intro h
      have hz : ¬ 0 < (comparativeAvgSentimentOverTimeData platform sel
          posts).labels.length := by
        simpa using h
      exact List.length_eq_zero.1 (Nat.eq_zero_of_not_pos hz)
    · intro h
      simp [h]

/-- Witness for C8 at a concrete dataset of `halfPosts`. -/
theorem c8_labeled_series_invariant_witness :
    ((comparativeAvgSentimentOverTimeData .instagram ["A"] halfPosts).datasets.getD 0
          default).data.length
        = (comparativeAvgSentimentOverTimeData .instagram ["A"] halfPosts).labels.length
      ∧ (showsTimeSeriesFallback
            (comparativeAvgSentimentOverTimeData .instagram ["A"] halfPosts) = true
          ↔ (comparativeAvgSentimentOverTimeData .instagram ["A"] halfPosts).labels
              = []) := by
  have hlen : 0 < (comparativeAvgSentimentOverTimeData .instagram ["A"]
      halfPosts).datasets.length := by decide
  have hd : (comparativeAvgSentimentOverTimeData .instagram ["A"]
        halfPosts).datasets.getD 0 default
      ∈ (comparativeAvgSentimentOverTimeData .instagram ["A"] halfPosts).datasets := by
    rw [List.getD_eq_getElem _ _ hlen]
    exact List.getElem_mem hlen
  have h := c8_labeled_series_invariant .instagram ["A"] halfPosts
  exact ⟨(h.1 _ hd).1, h.2⟩

/-- Claim C9 (the aggregator is modelled from spec §4.3, its source file
`src/utils/chartUtils.ts` being absent): the top-hashtags output carries at
most five labels, the label list is empty exactly when no selected brand has
any hashtag on the given platform, and the render fallback fires exactly on
the empty label list. -/
theorem c9_top_hashtags (insta tiktok : Brand → Option (List Post))
    (sel : List Brand) (platform : SocialPlatform) :
    (unifiedChartData insta tiktok sel platform).labels.length ≤ 5
      ∧ ((unifiedChartData insta tiktok sel platform).labels = []
          ↔ ∀ b ∈ sel, ∀ p ∈ platformPosts insta tiktok platform b,
              extractHashtags p = [])
      ∧ (showsHashtagFallback insta tiktok sel platform = true
          ↔ (unifiedChartData insta tiktok sel platform).labels = []) := by
  have hgen : (generateUnifiedHashtagChart insta tiktok sel platform).labels = []
      ↔ pooledTagOccurrences insta tiktok sel platform = [] := by
    unfold generateUnifiedHashtagChart
    rw [List.take_eq_nil_iff]
    constructor
    · rintro (h | h)
      · exact absurd h (by norm_num)
      · have hperm := List.perm_insertionSort
          (tagRankLe (pooledTagOccurrences insta tiktok sel platform))
          (firstDedup (pooledTagOccurrences insta tiktok sel platform))
        rw [h] at hperm
        have hlen := hperm.length_eq
        simp only [List.length_nil] at hlen
        exact (firstDedup_eq_nil_iff _).1
          (List.length_eq_zero.1 hlen.symm)
    · intro h
      right
      rw [h]
      rfl
  have hpool : pooledTagOccurrences insta tiktok sel platform = []
      ↔ ∀ b ∈ sel, ∀ p ∈ platformPosts insta tiktok platform b,
          extractHashtags p = [] := by
    unfold pooledTagOccurrences
    simp [List.flatMap_eq_nil_iff]
  by_cases hhd : hashtagHasData insta tiktok sel
  · have huni : unifiedChartData insta tiktok sel platform
        = generateUnifiedHashtagChart insta tiktok sel platform := by
      unfold unifiedChartData
      rw [if_pos hhd]
    refine ⟨?_, ?_, ?_⟩
    · rw [huni]
      unfold generateUnifiedHashtagChart
      exact List.length_take_le 5 _
    · rw [huni, hgen, hpool]
    · unfold showsHashtagFallback
      rw [hhd]
      simp [List.length_eq_zero]
  · have hhd' : hashtagHasData insta tiktok sel = false := by
      simpa using hhd
    have hposts : ∀ b ∈ sel, getPosts insta b = [] ∧ getPosts tiktok b = [] := by
      intro b hb
      unfold hashtagHasData at hhd'
      rw [List.any_eq_false] at hhd'
      have hbb := hhd' b hb
      simp only [Bool.or_eq_true, decide_eq_true_eq, not_or] at hbb
      constructor
      · exact List.length_eq_zero.1 (by omega)
      · exact List.length_eq_zero.1 (by omega)
    unfold unifiedChartData showsHashtagFallback
    rw [if_neg (by simp [hhd']), hhd']
    refine ⟨by simp, ?_, by simp⟩
    constructor
    · intro _ b hb p hp
      have h2 := hposts b hb
      cases platform with
      | instagram =>
        rw [show platformPosts insta tiktok .instagram b = getPosts insta b from rfl,
          h2.1] at hp
        exact absurd hp (List.not_mem_nil p)
      | tiktok =>
        rw [show platformPosts insta tiktok .tiktok b = getPosts tiktok b from rfl,
          h2.2] at hp
        exact absurd hp (List.not_mem_nil p)
    · intro _
      rfl

/-- Witness for C9 at a concrete hashtag dataset. -/
theorem c9_top_hashtags_witness :
    (unifiedChartData hashtagInsta (fun _ => none) ["A", "B"] .instagram).labels.length
      ≤ 5 :=
  (c9_top_hashtags hashtagInsta (fun _ => none) ["A", "B"] .instagram).1

/-- Claim C10: a post whose timestamp field is falsy (numeric `0` or the
empty string) is excluded from the sentiment time series — appending it to
any brand's list changes neither the sorted date keys nor any brand's
per-day scores or vector — even though epoch second `0` itself parses to the
valid UTC day `1970-01-01`. -/
theorem c10_falsy_timestamp (platform : SocialPlatform) (sel : List Brand)
    (posts : Brand → Option (List Post)) (b : Brand) (p : Post)
    (hfalsy : postTimestamp platform p = some (.num 0)
      ∨ postTimestamp platform p = some (.str "")) :
    bucketEntry platform p = none
      ∧ sortedDates platform sel (postsExtend posts b p) = sortedDates platform sel posts
      ∧ (∀ day x, dayScores platform sel (postsExtend posts b p) day x
          = dayScores platform sel posts day x)
      ∧ (∀ x, brandVector platform sel (postsExtend posts b p) x
          = brandVector platform sel posts x)
      ∧ formatDateForGrouping (.num 0) = "1970-01-01" := by
  have hbe : bucketEntry platform p = none := by
    rcases hfalsy with hts | hts <;>
      · unfold bucketEntry
        rw [hts]
        cases hsc : p.sentimentScore with
        | none => rfl
        | some s => simp [Timestamp.truthy]
  have hget : ∀ x, getPosts (postsExtend posts b p) x
      = if x = b then getPosts posts x ++ [p] else getPosts posts x := by
    intro x
    unfold getPosts postsExtend
    by_cases hx : x = b <;> simp [hx, getPosts]
  have hkeys : allKeys platform sel (postsExtend posts b p)
      = allKeys platform sel posts := by
    unfold allKeys
    apply List.flatMap_congr
    intro x _
    rw [hget x]
    by_cases hx : x = b
    · rw [if_pos hx, List.filterMap_append]
      simp [hbe]
    · rw [if_neg hx]
  have hsorted : sortedDates platform sel (postsExtend posts b p)
      = sortedDates platform sel posts := by
    unfold sortedDates
    rw [hkeys]
  have hpso : ∀ (day : String) (x : Brand),
      postsScoresOn platform (getPosts (postsExtend posts b p) x) day
        = postsScoresOn platform (getPosts posts x) day := by
    intro day x
    rw [hget x]
    by_cases hx : x = b
    · rw [if_pos hx]
      unfold postsScoresOn
      rw [List.filterMap_append]
      simp [hbe]
    · rw [if_neg hx]
  have hds : ∀ (day : String) (x : Brand),
      dayScores platform sel (postsExtend posts b p) day x
        = dayScores platform sel posts day x := by
    intro day x
    unfold dayScores
    apply List.flatMap_congr
    intro y _
    exact hpso day y
  refine ⟨hbe, hsorted, hds, ?_, by decide⟩
  intro x
  unfold brandVector
  rw [hsorted]
  apply List.map_congr_left
  intro day _
  rw [hds day x]

/-- Witness for C10 at a concrete post with timestamp `0`. -/
theorem c10_falsy_timestamp_witness :
    bucketEntry .instagram zeroTsPost = none
      ∧ formatDateForGrouping (.num 0) = "1970-01-01" := by
  have h := c10_falsy_timestamp .instagram ["A"] halfPosts "A" zeroTsPost (Or.inl rfl)
  exact ⟨h.1, h.2.2.2.2⟩

end Dashboard
